import Mathlib

/-!
Shallow embedding of `src/app.py` (cat detection system): the geometry
module (`point_in_polygon`), the relay pulse (`pulse_relay`), the frame
queue publish step, the `/save_polygon` endpoint, and one iteration of
the background `detection_loop`, together with theorems settling the
frozen claims about the spec.

Numeric model: Python floats are modelled as exact rationals (ℚ); Python
`int(...)` truncation toward zero is `truncInt`.  Fallible Python code is
modelled with `Except Unit`: an uncaught exception (ZeroDivisionError,
NameError, a raising collaborator call) is `.error ()`.
-/

namespace CatDetect

/-- `COOLDOWN = 2` from app.py line 26: trigger once every 2 seconds max. -/
def COOLDOWN : ℚ := 2

/-- `PULSE_DURATION = 0.5` from app.py line 25. -/
def PULSE_DURATION : ℚ := 1 / 2

/-- Python `int(q)` on a float: truncation toward zero, i.e. the numerator
T-divided by the (positive) denominator. -/
def truncInt (q : ℚ) : Int := Int.tdiv q.num (q.den : Int)

/-! ## Geometry module: `point_in_polygon` (app.py lines 74–95)

The Python loop keeps `inside` and, once assigned, `xinters` in function
scope; `xinters` persists across edge iterations, so the state carries
`Option ℚ` for it (`none` = not yet assigned; reading it then is a
NameError).  Division is checked: a zero denominator is a
ZeroDivisionError.  Both error cases are `.error ()`. -/

structure PipState where
  inside : Bool
  xinters : Option ℚ
deriving DecidableEq

/-- One edge iteration of the ray-casting loop (app.py lines 85–93), for the
edge `(p1, p2)` against the query point `(x, y)`.  Mirrors the nested `if`s:
`y > min(p1y,p2y)`, `y <= max(p1y,p2y)`, `x <= max(p1x,p2x)`; then
`xinters` is assigned only when `p1y != p2y`, and the crossing test
`p1x == p2x or x <= xinters` short-circuits. -/
def pipStep (x y : ℚ) (p1 p2 : ℚ × ℚ) (st : PipState) : Except Unit PipState :=
  let p1x := p1.1; let p1y := p1.2
  let p2x := p2.1; let p2y := p2.2
  if y > min p1y p2y ∧ y ≤ max p1y p2y ∧ x ≤ max p1x p2x then
    if p1y ≠ p2y then
      if p2y - p1y = 0 then .error ()  -- ZeroDivisionError
      else
        let xi := (y - p1y) * (p2x - p1x) / (p2y - p1y) + p1x
        if p1x = p2x ∨ x ≤ xi then .ok ⟨!st.inside, some xi⟩
        else .ok ⟨st.inside, some xi⟩
    else
      if p1x = p2x then .ok ⟨!st.inside, st.xinters⟩
      else
        match st.xinters with
        | none => .error ()  -- NameError: xinters referenced before assignment
        | some xi => if x ≤ xi then .ok ⟨!st.inside, some xi⟩ else .ok ⟨st.inside, some xi⟩
  else .ok st

/-- Fold `pipStep` over the list of edges, propagating an exception. -/
def pipLoop (x y : ℚ) : List ((ℚ × ℚ) × (ℚ × ℚ)) → PipState → Except Unit PipState
  | [], st => .ok st
  | e :: es, st =>
    match pipStep x y e.1 e.2 st with
    | .error u => .error u
    | .ok st' => pipLoop x y es st'

def toQpt (p : Int × Int) : ℚ × ℚ := ((p.1 : ℚ), (p.2 : ℚ))

/-- The edges traversed by the Python loop: `(polygon[i], polygon[(i+1) % n])`
for `i = 0 .. n-1`, i.e. the list zipped with its rotation by one. -/
def polyEdges (ps : List (ℚ × ℚ)) : List ((ℚ × ℚ) × (ℚ × ℚ)) :=
  ps.zip (ps.rotate 1)

/-- `point_in_polygon` (app.py lines 74–95).  Returns `.ok true` immediately
when the polygon has fewer than 3 vertices; otherwise runs the ray-casting
loop, whose uncaught exceptions (none occur, see `claim_C10_pip_total`
below) would propagate. -/
def point_in_polygon (point : Int × Int) (polygon : List (Int × Int)) : Except Unit Bool :=
  if polygon.length < 3 then .ok true
  else
    match pipLoop (point.1 : ℚ) (point.2 : ℚ) (polyEdges (polygon.map toQpt)) ⟨false, none⟩ with
    | .error u => .error u
    | .ok st => .ok st.inside

/-- Total wrapper used by the detection loop; by `pip_total` below the
`.error` default is never taken. -/
def pipBool (point : Int × Int) (polygon : List (Int × Int)) : Bool :=
  match point_in_polygon point polygon with
  | .ok b => b
  | .error _ => false

/-! ## Frames and the frame queue (app.py lines 29, 161–165, 238–243)

Frames are opaque tokens; rendering the translucent polygon overlay onto a
frame (cv2.polylines / fillPoly / addWeighted, lines 152–158 and 199–206) is
kept symbolic via the `overlaid` constructor.  `frame_queue` is
`queue.Queue(maxsize=2)`, modelled as a FIFO list of length ≤ 2; the
producer's publish step is `if not frame_queue.full(): put_nowait(frame)`
(the inner `except queue.Full: pass` is unreachable with the single
producer), so a full queue means the new frame is simply not enqueued. -/

inductive Frame
  | raw (id : Nat)
  | annotated (id : Nat)
  | overlaid (f : Frame) (poly : List (Int × Int))
deriving DecidableEq

/-- The pipeline's publish step (app.py lines 238–243 and 161–165). -/
def publish (q : List Frame) (f : Frame) : List Frame :=
  if q.length < 2 then q ++ [f] else q

/-! ## Relay pulse (app.py lines 98–108)

`pulse_relay` is straight-line code with no try/finally: GPIO.setmode,
GPIO.setup, output LOW (relay ON, active low), sleep PULSE_DURATION,
output HIGH (relay OFF), GPIO.cleanup.  `failAt = some k` models an
exception raised just before executing step `k` (e.g. `k = 3`: during the
hold sleep); the remaining steps are skipped and the exception propagates
(second component `true`). -/

inductive Level
  | low
  | high
deriving DecidableEq

structure RelayState where
  level : Option Level  -- last commanded output level (`none`: pin not driven)
  cleaned : Bool        -- GPIO.cleanup executed
deriving DecidableEq

/-- Effect of step `k` of `pulse_relay` on the GPIO state: step 2 drives LOW
(active), step 4 drives HIGH (inactive), step 5 releases via cleanup; steps
0 (setmode), 1 (setup) and 3 (sleep) leave the modelled state unchanged. -/
def relayStep (s : RelayState) (k : Nat) : RelayState :=
  if k = 2 then { s with level := some Level.low }
  else if k = 4 then { s with level := some Level.high }
  else if k = 5 then { s with cleaned := true }
  else s

/-- `pulse_relay` under fault scenario `failAt`: the steps actually executed,
folded over the initial state, plus whether an exception escaped. -/
def pulse_relay (failAt : Option (Fin 6)) : RelayState × Bool :=
  let executed : List Nat :=
    match failAt with
    | none => List.range 6
    | some k => (List.range 6).filter (fun i => i < k.val)
  (executed.foldl relayStep ⟨none, false⟩, failAt.isSome)

/-! ## Detection loop state and one iteration (app.py lines 111–256)

Shared state touched by one iteration: `detection_status` (lines 32,
221–226, 235–236), `last_trigger_time` (lines 34, 230–234),
`snapshot_frame` (lines 30, 145–146) and `frame_queue`.  The
`last_trigger` field of the status is modelled as the trigger time
(the code stores a formatted wall-clock datetime string).

Collaborator outcomes for the iteration are inputs: `capture` is
`picam2.capture_array()` (`.error ()`: the call raised, caught by the inner
`try`; `.ok none`: returned `None`; both continue after a short sleep),
`inferRaises` says whether `model(frame, ...)`/`results[0]` raised (this is
OUTSIDE any inner `try`, so it propagates to the outer handler at line 247
and ends the loop), `detections`/`annotatedFrame` are YOLO's results,
`polygon` is the value of `polygon_points` copied under the lock, `now` is
`time.time()` at line 230, and `drawRaises` models an exception inside the
drawing branch after the snapshot store (lines 148–165, caught at line
169). -/

structure Status where
  detected : Bool
  count : Nat
  last_trigger : Option ℚ
deriving DecidableEq

structure LoopState where
  status : Status
  last_trigger_time : ℚ
  snapshot : Option Frame
  frameQueue : List Frame
deriving DecidableEq

structure Detection where
  x1 : ℚ
  y1 : ℚ
  x2 : ℚ
  y2 : ℚ
deriving DecidableEq

/-- Bounding-box center, `(int((x1+x2)/2), int((y1+y2)/2))` (lines 211–213). -/
def center (d : Detection) : Int × Int :=
  (truncInt ((d.x1 + d.x2) / 2), truncInt ((d.y1 + d.y2) / 2))

structure IterInput where
  drawing : Bool
  capture : Except Unit (Option Frame)
  drawRaises : Bool
  inferRaises : Bool
  detections : List Detection
  annotatedFrame : Frame
  polygon : List (Int × Int)
  now : ℚ

structure IterResult where
  st : LoopState
  pulsed : Bool     -- whether pulse_relay() was invoked this iteration
  continues : Bool  -- false: the loop terminated (exception reached line 247)

/-- Filtering (lines 197–219): with a non-empty polygon keep only detections
whose center passes `point_in_polygon`; otherwise keep all. -/
def filterDetections (dets : List Detection) (poly : List (Int × Int)) : List Detection :=
  if poly.length > 0 then dets.filter (fun d => pipBool (center d) poly)
  else dets

/-- Relay logic (lines 229–236): trigger only when detected and strictly more
than `COOLDOWN` has elapsed since `last_trigger_time`; on trigger the
timestamp is set to `now`.  Returns (pulsed, new last_trigger_time). -/
def relayLogic (detected : Bool) (now ltt : ℚ) : Bool × ℚ :=
  if detected ∧ COOLDOWN < now - ltt then (true, now) else (false, ltt)

/-- The detect/filter/trigger/publish path of an iteration
(app.py lines 188–245), reached when not drawing, capture succeeded and
inference did not raise. -/
def detect_path (st : LoopState) (inp : IterInput) : IterResult :=
  let valid := filterDetections inp.detections inp.polygon
  let detected := decide (valid ≠ [])
  let status1 : Status :=
    { detected := detected
      count := st.status.count + (if detected then 1 else 0)
      last_trigger := st.status.last_trigger }
  let pr := relayLogic detected inp.now st.last_trigger_time
  let status2 := if pr.1 then { status1 with last_trigger := some inp.now } else status1
  let published :=
    if inp.polygon.length > 0 then Frame.overlaid inp.annotatedFrame inp.polygon
    else inp.annotatedFrame
  ⟨{ status := status2
     last_trigger_time := pr.2
     snapshot := st.snapshot
     frameQueue := publish st.frameQueue published }, pr.1, true⟩

/-- One iteration of the `while True` body of `detection_loop`
(app.py lines 128–245). -/
def detection_iter (st : LoopState) (inp : IterInput) : IterResult :=
  if inp.drawing then
    -- drawing branch (lines 133–172), wholly inside try/except: any
    -- exception is caught at line 169 and the loop continues
    match inp.capture with
    | .error _ => ⟨st, false, true⟩
    | .ok none => ⟨st, false, true⟩
    | .ok (some f) =>
      let st1 := { st with snapshot := some f }
      if inp.drawRaises then ⟨st1, false, true⟩
      else
        let published := if inp.polygon.length > 0 then Frame.overlaid f inp.polygon else f
        ⟨{ st1 with frameQueue := publish st1.frameQueue published }, false, true⟩
  else
    match inp.capture with
    | .error _ => ⟨st, false, true⟩   -- caught at line 183, sleep, continue
    | .ok none => ⟨st, false, true⟩   -- line 176: frame is None, sleep, continue
    | .ok (some _) =>
      if inp.inferRaises then ⟨st, false, false⟩  -- uncaught: loop terminates
      else detect_path st inp

/-- Run the loop over a list of per-iteration inputs, collecting the times of
relay pulses; the run stops early if an iteration terminates the loop. -/
def runPulses (st : LoopState) : List IterInput → List ℚ
  | [] => []
  | inp :: rest =>
    let r := detection_iter st inp
    let tail := if r.continues then runPulses r.st rest else []
    if r.pulsed then inp.now :: tail else tail

/-- Pulse times separated from a reference timestamp: the head exceeds it by
more than `COOLDOWN`, and recursively so along the list. -/
def cooldownChain : ℚ → List ℚ → Prop
  | _, [] => True
  | ltt, t :: ts => COOLDOWN < t - ltt ∧ cooldownChain t ts

/-! ## The `/save_polygon` endpoint (app.py lines 314–330, 60–71)

The endpoint does, in order: `data = request.get_json()`;
`points = data.get('points', [])`; `polygon_points = points` (under the
lock); `save_polygon()`; answers 200 on successful save, 500 on a failed
save, and 400 when anything in the body raised — which can only be the
extraction (`get_json` on a malformed body, or `.get` on a non-object),
since it precedes the mutation.  The extracted `points` value is an
arbitrary JSON value (`JVal`); extraction failure is `body = none`.
`save_polygon` fails (returns False, hence 500) when the disk write fails
(`diskOk = false`) or when `polygon_points.copy()` raises because the
stored value is not a list (`isArr pts = false`). -/

inductive JVal
  | num (n : Int)
  | str (s : String)
  | arr (xs : List JVal)

def isArr : JVal → Bool
  | .arr _ => true
  | _ => false

/-- Result: (HTTP status code, in-memory `polygon_points` after the request). -/
def save_polygon_endpoint (body : Option JVal) (poly : JVal) (diskOk : Bool) : Nat × JVal :=
  match body with
  | none => (400, poly)
  | some pts =>
    if isArr pts ∧ diskOk then (200, pts) else (500, pts)

/-- A well-formed region payload per the interface description (spec section
6): `points` is a sequence of 2-element integer-coordinate pairs.  Used only
to state which payloads are valid; the code performs no such validation. -/
def isValidRegionPayload : JVal → Bool
  | .arr xs => xs.all fun p =>
      match p with
      | .arr [.num _, .num _] => true
      | _ => false
  | _ => false

/-! ## Concrete states and inputs used by witnesses and counterexamples -/

def st0 : LoopState := ⟨⟨false, 0, none⟩, 0, none, []⟩

def inpCapErr : IterInput :=
  ⟨false, .error (), false, false, [], .annotated 0, [], 5⟩

def inpInferFail : IterInput :=
  ⟨false, .ok (some (.raw 0)), false, true, [], .annotated 0, [], 5⟩

def inpDrawing : IterInput :=
  ⟨true, .ok (some (.raw 7)), false, false, [], .annotated 7, [], 5⟩

/-- A non-empty region and an empty detection list: the filtered list is
empty, so the region (vacuously) rejects every detection center. -/
def inpNoDet : IterInput :=
  ⟨false, .ok (some (.raw 1)), false, false, [], .annotated 1, [(0, 0)], 10⟩

def oldPoly : JVal :=
  .arr [.arr [.num 0, .num 0], .arr [.num 10, .num 0], .arr [.num 0, .num 10]]

def newPts : JVal :=
  .arr [.arr [.num 5, .num 5], .arr [.num 6, .num 5], .arr [.num 5, .num 6]]

/-- A payload whose `points` entries are 3-element tuples: not a valid region
payload, yet accepted by the endpoint. -/
def badPts : JVal := .arr [.arr [.num 1, .num 2, .num 3]]

/-! ## Helper lemmas -/

lemma pipStep_ok (x y : ℚ) (p1 p2 : ℚ × ℚ) (st : PipState) :
    ∃ st', pipStep x y p1 p2 st = .ok st' := by
  unfold pipStep
  by_cases hmain : y > min p1.2 p2.2 ∧ y ≤ max p1.2 p2.2 ∧ x ≤ max p1.1 p2.1
  · rw [if_pos hmain]
    by_cases hy : p1.2 ≠ p2.2
    · rw [if_pos hy]
      have hden : ¬(p2.2 - p1.2 = 0) := by
        intro h; exact hy (by linarith)
      rw [if_neg hden]
      by_cases hcross : p1.1 = p2.1 ∨ x ≤ (y - p1.2) * (p2.1 - p1.1) / (p2.2 - p1.2) + p1.1
      · exact ⟨_, by rw [if_pos hcross]⟩
      · exact ⟨_, by rw [if_neg hcross]⟩
    · -- horizontal edge: the guards y > min ∧ y ≤ max are contradictory
      exfalso
      push_neg at hy
      obtain ⟨h1, h2, _⟩ := hmain
      have ha : p2.2 < y := by simpa [hy] using h1
      have hb : y ≤ p2.2 := by simpa [hy] using h2
      linarith
  · exact ⟨st, by rw [if_neg hmain]⟩

lemma pipLoop_cons (x y : ℚ) (e : (ℚ × ℚ) × (ℚ × ℚ)) (es : List ((ℚ × ℚ) × (ℚ × ℚ)))
    (st : PipState) :
    pipLoop x y (e :: es) st =
      match pipStep x y e.1 e.2 st with
      | .error u => .error u
      | .ok st' => pipLoop x y es st' := rfl

lemma pipLoop_ok (x y : ℚ) (es : List ((ℚ × ℚ) × (ℚ × ℚ))) :
    ∀ st : PipState, ∃ st', pipLoop x y es st = .ok st' := by
  induction es with
  | nil => intro st; exact ⟨st, rfl⟩
  | cons e es ih =>
    intro st
    obtain ⟨st1, h1⟩ := pipStep_ok x y e.1 e.2 st
    obtain ⟨st2, h2⟩ := ih st1
    refine ⟨st2, ?_⟩
    rw [pipLoop_cons, h1]
    exact h2

lemma pip_total (point : Int × Int) (polygon : List (Int × Int)) :
    ∃ b, point_in_polygon point polygon = .ok b := by
  unfold point_in_polygon
  by_cases h : polygon.length < 3
  · exact ⟨true, by rw [if_pos h]⟩
  · rw [if_neg h]
    obtain ⟨st', hst⟩ :=
      pipLoop_ok (point.1 : ℚ) (point.2 : ℚ) (polyEdges (polygon.map toQpt)) ⟨false, none⟩
    exact ⟨st'.inside, by rw [hst]⟩

lemma runPulses_cons (st : LoopState) (inp : IterInput) (rest : List IterInput) :
    runPulses st (inp :: rest) =
      (if (detection_iter st inp).pulsed then
        inp.now ::
          (if (detection_iter st inp).continues then runPulses (detection_iter st inp).st rest
           else [])
       else
        (if (detection_iter st inp).continues then runPulses (detection_iter st inp).st rest
         else [])) := rfl

/-- Either an iteration does not pulse and leaves `last_trigger_time`
unchanged, or it pulses, sets `last_trigger_time := now`, and the cooldown
guard held. -/
lemma iter_pulse_cases (st : LoopState) (inp : IterInput) :
    ((detection_iter st inp).pulsed = false ∧
      (detection_iter st inp).st.last_trigger_time = st.last_trigger_time) ∨
    ((detection_iter st inp).pulsed = true ∧
      (detection_iter st inp).st.last_trigger_time = inp.now ∧
      COOLDOWN < inp.now - st.last_trigger_time) := by
  unfold detection_iter
  cases hd : inp.drawing
  case true =>
    cases hcap : inp.capture with
    | error u => exact Or.inl ⟨rfl, rfl⟩
    | ok o =>
      cases o with
      | none => exact Or.inl ⟨rfl, rfl⟩
      | some f =>
        cases hdr : inp.drawRaises
        case true => exact Or.inl ⟨rfl, rfl⟩
        case false => exact Or.inl ⟨rfl, rfl⟩
  case false =>
    cases hcap : inp.capture with
    | error u => exact Or.inl ⟨rfl, rfl⟩
    | ok o =>
      cases o with
      | none => exact Or.inl ⟨rfl, rfl⟩
      | some f =>
        cases hi : inp.inferRaises
        case true => exact Or.inl ⟨rfl, rfl⟩
        case false =>
          show ((relayLogic (decide (filterDetections inp.detections inp.polygon ≠ []))
                    inp.now st.last_trigger_time).1 = false ∧
                (relayLogic (decide (filterDetections inp.detections inp.polygon ≠ []))
                    inp.now st.last_trigger_time).2 = st.last_trigger_time) ∨
               ((relayLogic (decide (filterDetections inp.detections inp.polygon ≠ []))
                    inp.now st.last_trigger_time).1 = true ∧
                (relayLogic (decide (filterDetections inp.detections inp.polygon ≠ []))
                    inp.now st.last_trigger_time).2 = inp.now ∧
                COOLDOWN < inp.now - st.last_trigger_time)
          unfold relayLogic
          split_ifs with hp
          · exact Or.inr ⟨rfl, rfl, hp.2⟩
          · exact Or.inl ⟨rfl, rfl⟩

lemma runPulses_chain (inps : List IterInput) :
    ∀ st : LoopState, cooldownChain st.last_trigger_time (runPulses st inps) := by
  induction inps with
  | nil => intro st; trivial
  | cons inp rest ih =>
    intro st
    rw [runPulses_cons]
    rcases iter_pulse_cases st inp with ⟨hp, hl⟩ | ⟨hp, hl, hc⟩
    · rw [hp, if_neg (by decide : ¬(false = true))]
      by_cases hcont : (detection_iter st inp).continues = true
      · rw [if_pos hcont]
        have htail := ih (detection_iter st inp).st
        rw [hl] at htail
        exact htail
      · rw [if_neg hcont]
        trivial
    · rw [hp, if_pos (rfl : true = true)]
      refine ⟨hc, ?_⟩
      by_cases hcont : (detection_iter st inp).continues = true
      · rw [if_pos hcont]
        have htail := ih (detection_iter st inp).st
        rw [hl] at htail
        exact htail
      · rw [if_neg hcont]
        trivial

lemma cooldownChain_chain' (ts : List ℚ) :
    ∀ ltt : ℚ, cooldownChain ltt ts →
      List.Chain' (fun t1 t2 => COOLDOWN < t2 - t1) ts := by
  induction ts with
  | nil => intro _ _; exact List.chain'_nil
  | cons t ts ih =>
    intro ltt h
    cases ts with
    | nil => exact List.chain'_singleton t
    | cons t2 rest =>
      obtain ⟨_, h2⟩ := h
      rw [List.chain'_cons]
      exact ⟨h2.1, ih t h2⟩

lemma detection_iter_detect (st : LoopState) (inp : IterInput) (f : Frame)
    (hd : inp.drawing = false) (hcap : inp.capture = Except.ok (some f))
    (hi : inp.inferRaises = false) :
    detection_iter st inp = detect_path st inp := by
  unfold detection_iter
  rw [hd, hcap, hi]
  rfl

lemma ite_status_detected (c : Prop) [Decidable c] (a b : Status) :
    (if c then a else b).detected = if c then a.detected else b.detected := by
  split_ifs <;> rfl

lemma ite_status_count (c : Prop) [Decidable c] (a b : Status) :
    (if c then a else b).count = if c then a.count else b.count := by
  split_ifs <;> rfl

lemma relayLogic_false (now ltt : ℚ) : relayLogic false now ltt = (false, ltt) := by
  unfold relayLogic
  exact if_neg (fun hc => Bool.false_ne_true hc.1)

lemma detect_path_detected (st : LoopState) (inp : IterInput) :
    (detect_path st inp).st.status.detected
      = decide (filterDetections inp.detections inp.polygon ≠ []) := by
  simp only [detect_path, ite_status_detected]
  simp

lemma detect_path_count (st : LoopState) (inp : IterInput) :
    (detect_path st inp).st.status.count
      = st.status.count + (if filterDetections inp.detections inp.polygon ≠ [] then 1 else 0) := by
  simp only [detect_path, ite_status_count]
  by_cases hP : filterDetections inp.detections inp.polygon ≠ []
  · simp [hP]
  · simp [hP]

lemma detect_path_pulsed (st : LoopState) (inp : IterInput) :
    (detect_path st inp).pulsed
      = (relayLogic (decide (filterDetections inp.detections inp.polygon ≠ []))
          inp.now st.last_trigger_time).1 := by
  simp only [detect_path]

/-! ## Claim theorems -/

/-- Claim C1, counterexample.  The claim says a publish into a full buffer
drops the OLDEST unread frame and retains the newly published one; the code
(app.py lines 239–243) skips the put when the queue is full, so the new
frame is dropped and both old frames — the oldest included — survive
unchanged. -/
theorem claim_C1_counterexample :
    publish [Frame.raw 0, Frame.raw 1] (Frame.raw 2) = [Frame.raw 0, Frame.raw 1] ∧
    Frame.raw 2 ∉ publish [Frame.raw 0, Frame.raw 1] (Frame.raw 2) ∧
    Frame.raw 0 ∈ publish [Frame.raw 0, Frame.raw 1] (Frame.raw 2) := by decide

/-- Claim C1 (amended): publishing while the buffer (capacity 2) is full
returns immediately without blocking the producer, and the NEWLY published
frame is dropped: the buffer, including its oldest unread frame, is left
unchanged. -/
theorem claim_C1_publish_full (q : List Frame) (f : Frame) (h : 2 ≤ q.length) :
    publish q f = q := by
  unfold publish
  rw [if_neg (by omega)]

/-- Claim C1, witness for the amended theorem at a concrete full buffer. -/
theorem claim_C1_witness :
    2 ≤ ([Frame.raw 0, Frame.raw 1] : List Frame).length ∧
    publish [Frame.raw 0, Frame.raw 1] (Frame.raw 2) = [Frame.raw 0, Frame.raw 1] :=
  ⟨by decide, claim_C1_publish_full [Frame.raw 0, Frame.raw 1] (Frame.raw 2) (by decide)⟩

/-- Claim C2, counterexample.  The claim says an inference error is caught
and the loop continues; in the code the inference call (line 189) sits
outside the inner try blocks, so the exception reaches the outer handler
(line 247) and the loop terminates. -/
theorem claim_C2_counterexample :
    inpInferFail.drawing = false ∧ inpInferFail.inferRaises = true ∧
    (detection_iter st0 inpInferFail).continues = false := by decide

/-- Claim C2 (amended): a capture error is caught inside the iteration and
the loop continues with state unchanged (frame dropped); an error raised by
the inference step, however, is caught and logged only by the loop's OUTER
handler and terminates the pipeline loop (no frame published, no pulse),
rather than continuing to the next iteration. -/
theorem claim_C2_error_containment (st : LoopState) (inp : IterInput) :
    (inp.capture = Except.error () →
      (detection_iter st inp).continues = true ∧ (detection_iter st inp).st = st ∧
      (detection_iter st inp).pulsed = false) ∧
    (inp.drawing = false → inp.inferRaises = true →
      ∀ f, inp.capture = Except.ok (some f) →
        (detection_iter st inp).continues = false ∧ (detection_iter st inp).st = st ∧
        (detection_iter st inp).pulsed = false) := by
  constructor
  · intro hcap
    unfold detection_iter
    rw [hcap]
    cases hd : inp.drawing
    case true => exact ⟨rfl, rfl, rfl⟩
    case false => exact ⟨rfl, rfl, rfl⟩
  · intro hd hi f hcap
    unfold detection_iter
    rw [hd, hcap, hi]
    exact ⟨rfl, rfl, rfl⟩

/-- Claim C2, witness: a concrete capture error continues the loop, and a
concrete inference error terminates it. -/
theorem claim_C2_witness :
    (detection_iter st0 inpCapErr).continues = true ∧
    (detection_iter st0 inpInferFail).continues = false :=
  ⟨((claim_C2_error_containment st0 inpCapErr).1 rfl).1,
   ((claim_C2_error_containment st0 inpInferFail).2 rfl rfl (Frame.raw 0) rfl).1⟩

/-- Claim C3: along any run of the detection loop, consecutive relay pulse
times are separated by strictly more than COOLDOWN — a pulse at time t
forbids another until more than COOLDOWN has elapsed, however frequent the
qualifying detections. -/
theorem claim_C3_cooldown (st : LoopState) (inps : List IterInput) :
    List.Chain' (fun t1 t2 => COOLDOWN < t2 - t1) (runPulses st inps) :=
  cooldownChain_chain' (runPulses st inps) st.last_trigger_time (runPulses_chain inps st)

/-- Claim C4: an iteration that samples the drawing flag as true never
invokes the relay pulse and leaves the detection status (its `detected`
flag included) untouched, and the loop continues. -/
theorem claim_C4_drawing_suppression (st : LoopState) (inp : IterInput)
    (h : inp.drawing = true) :
    (detection_iter st inp).pulsed = false ∧
    (detection_iter st inp).st.status = st.status ∧
    (detection_iter st inp).continues = true := by
  unfold detection_iter
  rw [h]
  cases hcap : inp.capture with
  | error u => exact ⟨rfl, rfl, rfl⟩
  | ok o =>
    cases o with
    | none => exact ⟨rfl, rfl, rfl⟩
    | some f =>
      cases hdr : inp.drawRaises
      case true => exact ⟨rfl, rfl, rfl⟩
      case false => exact ⟨rfl, rfl, rfl⟩

/-- Claim C4, witness at a concrete drawing-mode iteration. -/
theorem claim_C4_witness :
    (detection_iter st0 inpDrawing).pulsed = false ∧
    (detection_iter st0 inpDrawing).st.status = st0.status ∧
    (detection_iter st0 inpDrawing).continues = true :=
  claim_C4_drawing_suppression st0 inpDrawing rfl

/-- Claim C5, counterexample.  The claim says a replace whose save fails
leaves the in-memory polygon equal to the pre-request polygon; the endpoint
(lines 322–323) assigns `polygon_points = points` BEFORE calling
`save_polygon()`, so after a failed save the in-memory polygon is the new
one. -/
theorem claim_C5_counterexample :
    (save_polygon_endpoint (some newPts) oldPoly false).1 = 500 ∧
    (save_polygon_endpoint (some newPts) oldPoly false).2 ≠ oldPoly := by
  constructor
  · rfl
  · show newPts ≠ oldPoly
    intro h
    simp only [newPts, oldPoly] at h
    simp at h

/-- Claim C5 (amended): a replace whose persistence fails reports failure to
the caller (HTTP 500), but the in-memory polygon has already been replaced
by the submitted points, not restored to the pre-request polygon. -/
theorem claim_C5_failed_save (poly pts : JVal) :
    (save_polygon_endpoint (some pts) poly false).1 = 500 ∧
    (save_polygon_endpoint (some pts) poly false).2 = pts := by
  have h : save_polygon_endpoint (some pts) poly false = (500, pts) :=
    if_neg (fun hc => Bool.false_ne_true hc.2)
  rw [h]
  exact ⟨rfl, rfl⟩

/-- Claim C6, counterexample.  The claim says every invalid region payload
is rejected with a client error and causes no mutation; a payload whose
`points` entries are 3-element tuples is invalid per the interface, yet the
endpoint accepts it with 200 and replaces the in-memory polygon. -/
theorem claim_C6_counterexample :
    isValidRegionPayload badPts = false ∧
    (save_polygon_endpoint (some badPts) oldPoly true).1 = 200 ∧
    (save_polygon_endpoint (some badPts) oldPoly true).2 ≠ oldPoly := by
  refine ⟨rfl, rfl, ?_⟩
  show badPts ≠ oldPoly
  intro h
  simp only [badPts, oldPoly] at h
  simp at h

/-- Claim C6 (amended): only payloads whose JSON/object extraction raises
are rejected, with a 400 client error and no mutation of the in-memory
polygon; payloads that extract successfully are not validated against the
region format and are stored even when invalid. -/
theorem claim_C6_extraction_rejected (poly : JVal) (diskOk : Bool) :
    save_polygon_endpoint none poly diskOk = (400, poly) := rfl

/-- Claim C7, counterexample.  The claim says every pulse invocation
restores the inactive level and releases GPIO on all exit paths; an
exception during the hold sleep (step 3) leaves the pin driven LOW (active)
and the GPIO resource unreleased, because `pulse_relay` has no
try/finally. -/
theorem claim_C7_counterexample :
    (pulse_relay (some 3)).2 = true ∧
    (pulse_relay (some 3)).1.level = some Level.low ∧
    (pulse_relay (some 3)).1.cleaned = false := by decide

/-- Claim C7 (amended): an invocation of the pulse that terminates normally
restores the inactive (HIGH) level and releases the GPIO resource; on
abnormal termination during the pulse neither is guaranteed. -/
theorem claim_C7_normal_exit :
    (pulse_relay none).1.level = some Level.high ∧
    (pulse_relay none).1.cleaned = true ∧
    (pulse_relay none).2 = false := by decide

/-- Claim C8: for every point and every polygon with fewer than 3 vertices,
`point_in_polygon` returns true (no exception). -/
theorem claim_C8_small_polygon (pt : Int × Int) (poly : List (Int × Int))
    (h : poly.length < 3) :
    point_in_polygon pt poly = Except.ok true := by
  unfold point_in_polygon
  rw [if_pos h]

/-- Claim C8, witness at a concrete point and 2-vertex polygon. -/
theorem claim_C8_witness :
    ([(0, 0), (10, 0)] : List (Int × Int)).length < 3 ∧
    point_in_polygon (5, 5) [(0, 0), (10, 0)] = Except.ok true :=
  ⟨by decide, claim_C8_small_polygon (5, 5) [(0, 0), (10, 0)] (by decide)⟩

/-- Claim C9: in a non-drawing iteration with successful capture and
inference, the `detected` flag becomes (filtered list non-empty) and the
counter is incremented exactly when the filtered list is non-empty; with a
non-empty region rejecting every detection center, `detected` is false, the
counter is unchanged and no pulse occurs. -/
theorem claim_C9_trigger_check (st : LoopState) (inp : IterInput) (f : Frame)
    (hd : inp.drawing = false)
    (hcap : inp.capture = Except.ok (some f))
    (hi : inp.inferRaises = false) :
    (detection_iter st inp).st.status.detected
        = decide (filterDetections inp.detections inp.polygon ≠ []) ∧
    (detection_iter st inp).st.status.count
        = st.status.count
          + (if filterDetections inp.detections inp.polygon ≠ [] then 1 else 0) ∧
    (inp.polygon ≠ [] →
      (∀ d ∈ inp.detections, pipBool (center d) inp.polygon = false) →
      (detection_iter st inp).st.status.detected = false ∧
      (detection_iter st inp).st.status.count = st.status.count ∧
      (detection_iter st inp).pulsed = false) := by
  rw [detection_iter_detect st inp f hd hcap hi]
  refine ⟨detect_path_detected st inp, detect_path_count st inp, ?_⟩
  intro hpoly hall
  have hfil : filterDetections inp.detections inp.polygon = [] := by
    unfold filterDetections
    rw [if_pos (List.length_pos.mpr hpoly)]
    apply List.filter_eq_nil_iff.mpr
    intro d hdmem
    simp [hall d hdmem]
  refine ⟨?_, ?_, ?_⟩
  · rw [detect_path_detected st inp, hfil]
    simp
  · rw [detect_path_count st inp, hfil]
    simp
  · rw [detect_path_pulsed st inp, hfil]
    simp [relayLogic_false]

/-- Claim C9, witness: concrete non-drawing iteration with a non-empty
region and no passing detection; status stays undetected, count unchanged,
no pulse. -/
theorem claim_C9_witness :
    (detection_iter st0 inpNoDet).st.status.detected = false ∧
    (detection_iter st0 inpNoDet).st.status.count = st0.status.count ∧
    (detection_iter st0 inpNoDet).pulsed = false :=
  (claim_C9_trigger_check st0 inpNoDet (Frame.raw 1) rfl rfl rfl).2.2
    (by decide)
    (fun d hd => absurd hd (List.not_mem_nil d))

/-- Claim C10: `point_in_polygon` is total on every point and polygon — the
checked embedding, in which a zero-denominator division or a use of
`xinters` before assignment yields an error, always returns `ok`: the
guards `y > min(p1y,p2y)` and `y <= max(p1y,p2y)` are jointly unsatisfiable
on a horizontal edge, so the division's denominator is never zero and
`xinters` is always assigned in the same iteration that uses it. -/
theorem claim_C10_pip_total (pt : Int × Int) (poly : List (Int × Int)) :
    ∃ b, point_in_polygon pt poly = Except.ok b :=
  pip_total pt poly

end CatDetect
